import Mathlib

/-!
# Verification of the FBF (Forward-Backward-Forward) optimizer

Shallow embedding of the FBFSGD optimizer illustrated in
`linear_classifier_fbf.ipynb` (plain-gradient descent rule).  Parameter
tensors are modelled componentwise by rationals; a tracked parameter is a
mutable value together with an optional gradient slot written by the
external differentiation pass.  The optimizer's calls are modelled as
state-passing functions; fallible calls return `Except`, so an erroneous
call produces no successor state and hence mutates nothing.

The arithmetic of `extrapolation` and `step` is fixed by the notebook
itself: its protocol description (store the applied update,
e.g. `-alpha * grad`; the step subtracts the stored update) and its recorded
outputs (after extrapolation with gradient g the cache entry printed is
`-lr * g`, and the weights after `opt.step()` equal
`weights - lr*grad - update()`).  The phase flag (`inertia`), the
precondition checks and `zero_grad` live in the repository's `optim`
module, which is not part of the notebook; those parts are modelled from
the specification (two-phase state machine, `InvalidPhase` /
`MissingGradient` detected before any mutation) and from the notebook's
recorded observations of them.
-/

/-- A tracked parameter: a mutable numeric value (one tensor component)
and a gradient slot, `none` until the external differentiation pass
populates it. -/
structure Param where
  data : ℚ
  grad : Option ℚ
  deriving DecidableEq, Repr

/-- Modelled from the spec: the optimizer's `PhaseState`, the `inertia`
flag of the `optim` module (printed as `0` on a fresh optimizer), with
`awaitingExtrapolation` as the initial state. -/
inductive Phase where
  | awaitingExtrapolation
  | awaitingStep
  deriving DecidableEq, Repr

/-- Modelled from the spec: the precondition-violation conditions of the
optimizer's fallible calls. -/
inductive OptError where
  | invalidPhase
  | missingGradient
  deriving DecidableEq, Repr

/-- The FBFSGD optimizer state: step size (`lr`), the tracked parameters,
the per-parameter update cache (`updates_copy` in the notebook, one entry
per parameter while an iteration is in progress), the (always empty for
the plain-gradient rule) `old_params_copy` auxiliary list, and the phase
flag. -/
structure FBFSGD where
  lr : ℚ
  params : List Param
  updates_copy : List ℚ
  old_params_copy : List ℚ
  inertia : Phase
  deriving DecidableEq, Repr

namespace FBFSGD

/-- A gradient slot read as a number (`0` when unset; the fallible calls
reject unset slots before reading them). -/
def gradOr0 (p : Param) : ℚ := p.grad.getD 0

/-- The plain-gradient descent rule applied to one parameter: the signed
update `-lr * grad` that the optimizer adds to the parameter value, as in
the notebook's protocol description (store the update
`-alpha * grad F(x_k, y_k)`). -/
def sgdUpdate (lr : ℚ) (p : Param) : ℚ := -(lr * gradOr0 p)

/-- Construction: `FBFSGD(A.parameters(), lr)` — the notebook prints an
empty `updates_copy`, an empty `old_params_copy` and `inertia = 0` on the
fresh instance. -/
def init (lr : ℚ) (ps : List Param) : FBFSGD :=
  { lr := lr
    params := ps
    updates_copy := []
    old_params_copy := []
    inertia := Phase.awaitingExtrapolation }

/-- `opt.extrapolation()`.  Precondition checks are modelled from the
spec (`InvalidPhase`, then `MissingGradient`, detected before any
mutation).  On success, for every tracked parameter the update
`-lr * grad` is added in place (`x <- x - lr * grad`, matching the
notebook's recorded weights) and the same update is stored in
`updates_copy` (matching the notebook's recorded cache `-lr * grad`);
the phase moves to `awaitingStep`. -/
def extrapolation (o : FBFSGD) : Except OptError FBFSGD :=
  if o.inertia = Phase.awaitingStep then
    Except.error OptError.invalidPhase
  else if o.params.any (fun p => p.grad.isNone) then
    Except.error OptError.missingGradient
  else
    Except.ok
      { o with
        params := o.params.map (fun p => { p with data := p.data + sgdUpdate o.lr p })
        updates_copy := o.params.map (fun p => sgdUpdate o.lr p)
        inertia := Phase.awaitingStep }

/-- `opt.step()`.  Precondition checks are modelled from the spec.  On
success, for every tracked parameter the new update `-lr * grad` is added
and the cached update is subtracted (the notebook verifies
`weights() - lr*grad(outp) - update()` against the weights after
`opt.step()`); the cache is cleared and the phase returns to
`awaitingExtrapolation`. -/
def step (o : FBFSGD) : Except OptError FBFSGD :=
  if o.inertia = Phase.awaitingExtrapolation then
    Except.error OptError.invalidPhase
  else if o.params.any (fun p => p.grad.isNone) then
    Except.error OptError.missingGradient
  else
    Except.ok
      { o with
        params :=
          List.zipWith (fun p u => { p with data := p.data + sgdUpdate o.lr p - u })
            o.params o.updates_copy
        updates_copy := []
        inertia := Phase.awaitingExtrapolation }

/-- `opt.zero_grad()`: zeroes every gradient slot that has been
populated and leaves never-populated slots unset — the notebook's first
`zero_grad` call prints `Gradient None` afterwards, while later calls
print zero tensors.  Nothing else is touched. -/
def zero_grad (o : FBFSGD) : FBFSGD :=
  { o with params := o.params.map (fun p => { p with grad := p.grad.map (fun _ => 0) }) }

/-- Modelled from the spec: the external differentiation pass
(`lc_loss.backward()`) writing a gradient into every tracked parameter's
slot; a no-op unless one gradient per parameter is supplied. -/
def setGrads (o : FBFSGD) (gs : List ℚ) : FBFSGD :=
  if gs.length = o.params.length then
    { o with params := List.zipWith (fun p g => { p with grad := some g }) o.params gs }
  else o

/-- The caller's projection between extrapolation and step
(`p.data.clamp_(-clip, clip)` in the notebook): clamps every parameter
value in place and touches nothing else of the optimizer. -/
def clampParams (o : FBFSGD) (lo hi : ℚ) : FBFSGD :=
  { o with params := o.params.map (fun p => { p with data := min (max p.data lo) hi }) }

/-- Successor state produced by a successful `extrapolation`. -/
def extrapolated (o : FBFSGD) : FBFSGD :=
  { o with
    params := o.params.map (fun p => { p with data := p.data + sgdUpdate o.lr p })
    updates_copy := o.params.map (fun p => sgdUpdate o.lr p)
    inertia := Phase.awaitingStep }

/-- Successor state produced by a successful `step`. -/
def stepped (o : FBFSGD) : FBFSGD :=
  { o with
    params :=
      List.zipWith (fun p u => { p with data := p.data + sgdUpdate o.lr p - u })
        o.params o.updates_copy
    updates_copy := []
    inertia := Phase.awaitingExtrapolation }

/-- The optimizer states reachable from a freshly constructed
`FBFSGD(ps, lr)` through the public operations and the external
collaborators observed in the notebook: `zero_grad`, the external
differentiation pass writing gradients, the caller's projection, and the
two fallible calls when they succeed. -/
inductive Reachable (lr : ℚ) (ps : List Param) : FBFSGD → Prop where
  | init : Reachable lr ps (FBFSGD.init lr ps)
  | zero_grad {o : FBFSGD} : Reachable lr ps o → Reachable lr ps o.zero_grad
  | setGrads {o : FBFSGD} (gs : List ℚ) : Reachable lr ps o → Reachable lr ps (o.setGrads gs)
  | clamp {o : FBFSGD} (lo hi : ℚ) : Reachable lr ps o → Reachable lr ps (o.clampParams lo hi)
  | extrapolation {o o' : FBFSGD} :
      Reachable lr ps o → o.extrapolation = Except.ok o' → Reachable lr ps o'
  | step {o o' : FBFSGD} :
      Reachable lr ps o → o.step = Except.ok o' → Reachable lr ps o'

theorem extrapolation_eq (o : FBFSGD) :
    o.extrapolation =
      if o.inertia = Phase.awaitingStep then Except.error OptError.invalidPhase
      else if o.params.any (fun p => p.grad.isNone) then Except.error OptError.missingGradient
      else Except.ok o.extrapolated := rfl

theorem step_eq (o : FBFSGD) :
    o.step =
      if o.inertia = Phase.awaitingExtrapolation then Except.error OptError.invalidPhase
      else if o.params.any (fun p => p.grad.isNone) then Except.error OptError.missingGradient
      else Except.ok o.stepped := rfl

/-- A successful `extrapolation` call happened in the `awaitingExtrapolation`
phase, with every gradient slot populated, and produced `extrapolated`. -/
theorem extrapolation_ok_elim {o o' : FBFSGD} (h : o.extrapolation = Except.ok o') :
    o.inertia = Phase.awaitingExtrapolation ∧
    o.params.any (fun p => p.grad.isNone) = false ∧
    o' = o.extrapolated := by
  rw [extrapolation_eq] at h
  split at h
  · exact absurd h (by simp)
  · split at h
    · exact absurd h (by simp)
    · refine ⟨?_, by simp_all, (Except.ok.injEq _ _ ▸ h).symm⟩
      cases hph : o.inertia with
      | awaitingExtrapolation => rfl
      | awaitingStep => simp_all

/-- A successful `step` call happened in the `awaitingStep` phase, with every
gradient slot populated, and produced `stepped`. -/
theorem step_ok_elim {o o' : FBFSGD} (h : o.step = Except.ok o') :
    o.inertia = Phase.awaitingStep ∧
    o.params.any (fun p => p.grad.isNone) = false ∧
    o' = o.stepped := by
  rw [step_eq] at h
  split at h
  · exact absurd h (by simp)
  · split at h
    · exact absurd h (by simp)
    · refine ⟨?_, by simp_all, (Except.ok.injEq _ _ ▸ h).symm⟩
      cases hph : o.inertia with
      | awaitingExtrapolation => simp_all
      | awaitingStep => rfl

end FBFSGD

namespace FBFSGD

/-- Structural invariant maintained by every reachable state: the step size
is the construction-time one, the number of tracked parameters never
changes, and the cache is a full per-parameter list exactly in the
`awaitingStep` phase and empty in the `awaitingExtrapolation` phase. -/
theorem reachable_inv {lr : ℚ} {ps : List Param} {o : FBFSGD} (h : Reachable lr ps o) :
    o.lr = lr ∧ o.params.length = ps.length ∧
    ((o.inertia = Phase.awaitingStep ∧ o.updates_copy.length = ps.length) ∨
     (o.inertia = Phase.awaitingExtrapolation ∧ o.updates_copy = [])) := by
  induction h with
  | init => simp [FBFSGD.init]
  | zero_grad _ ih => simpa [FBFSGD.zero_grad] using ih
  | setGrads gs _ ih =>
      unfold FBFSGD.setGrads
      split
      · next hlen =>
          obtain ⟨h1, h2, h3⟩ := ih
          refine ⟨h1, ?_, h3⟩
          simp [List.length_zipWith, hlen, h2]
      · exact ih
  | clamp lo hi _ ih => simpa [FBFSGD.clampParams] using ih
  | extrapolation _ hok ih =>
      obtain ⟨hph, hgr, rfl⟩ := extrapolation_ok_elim hok
      obtain ⟨h1, h2, _⟩ := ih
      exact ⟨h1, by simpa [FBFSGD.extrapolated] using h2,
        Or.inl ⟨rfl, by simpa [FBFSGD.extrapolated] using h2⟩⟩
  | step _ hok ih =>
      obtain ⟨hph, hgr, rfl⟩ := step_ok_elim hok
      obtain ⟨h1, h2, h3⟩ := ih
      rcases h3 with ⟨_, hcl⟩ | ⟨hbad, _⟩
      · exact ⟨h1, by simp [FBFSGD.stepped, List.length_zipWith, h2, hcl], Or.inr ⟨rfl, rfl⟩⟩
      · rw [hph] at hbad; exact absurd hbad (by simp)

/-- Claim C2: after a successful `extrapolation()` with the plain-gradient
rule and step size `lr > 0`, every tracked parameter's value equals its
pre-call value minus `lr` times its current gradient, applied in place to
every tracked parameter (stated as an equality of the value lists). -/
theorem extrapolation_descent (o o' : FBFSGD) (_ha : 0 < o.lr)
    (h : o.extrapolation = Except.ok o') :
    o'.params.map Param.data = o.params.map (fun p => p.data - o.lr * gradOr0 p) := by
  obtain ⟨-, -, rfl⟩ := extrapolation_ok_elim h
  simp [extrapolated, List.map_map, Function.comp, sgdUpdate, sub_eq_add_neg]

/-- Witness for claim C2 at the concrete scenario: one parameter with value
`1`, gradient `2`, step size `1/10`; after extrapolation the value is
`1 - (1/10)*2 = 4/5`. -/
theorem extrapolation_descent_witness :
    (0 : ℚ) < 1/10 ∧
    ({ lr := 1/10, params := [⟨4/5, some 2⟩], updates_copy := [-(1/5)],
       old_params_copy := [], inertia := Phase.awaitingStep } : FBFSGD).params.map Param.data
      = (FBFSGD.init (1/10) [⟨1, some 2⟩]).params.map
          (fun p => p.data - (FBFSGD.init (1/10) [⟨1, some 2⟩]).lr * gradOr0 p) :=
  ⟨by norm_num,
   extrapolation_descent (FBFSGD.init (1/10) [⟨1, some 2⟩])
     { lr := 1/10, params := [⟨4/5, some 2⟩], updates_copy := [-(1/5)],
       old_params_copy := [], inertia := Phase.awaitingStep }
     (by norm_num [FBFSGD.init])
     (by simp [FBFSGD.extrapolation, FBFSGD.init, sgdUpdate, gradOr0]; norm_num)⟩

/-- Claim C1: for every completed FBF iteration — a successful
`extrapolation()` (gradients `g_x`) followed by a successful `step()`
(gradients `g_u`), with the parameter values and gradients arbitrarily
rewritten by the caller in between but the step size and cache untouched —
the final value of every parameter is `u_k - lr * g_u + lr * g_x`, where
`u_k` is the parameter's value at the start of `step()`: the pair of calls
reproduces the FBF recurrence. -/
theorem fbf_iteration_recurrence (o o₁ o₂ o₃ : FBFSGD)
    (h1 : o.extrapolation = Except.ok o₁)
    (hlr : o₂.lr = o.lr)
    (hcache : o₂.updates_copy = o₁.updates_copy)
    (h2 : o₂.step = Except.ok o₃) :
    o₃.params.map Param.data
      = List.zipWith (fun q p => q.data - o.lr * gradOr0 q + o.lr * gradOr0 p)
          o₂.params o.params := by
  obtain ⟨-, -, rfl⟩ := extrapolation_ok_elim h1
  obtain ⟨-, -, rfl⟩ := step_ok_elim h2
  have hc : o₂.updates_copy = o.params.map (fun p => sgdUpdate o.lr p) := by
    simpa [extrapolated] using hcache
  simp only [stepped, List.map_zipWith, hc, List.zipWith_map_right]
  congr 1
  funext q p
  simp only [sgdUpdate, hlr]
  ring

/-- Witness for claim C1 at the concrete scenario: value `1`, step size
`1/10`, gradient `2` at extrapolation and `3/2` at step; the final value is
`4/5 - (1/10)*(3/2) + (1/10)*2 = 17/20`. -/
theorem fbf_iteration_recurrence_witness :
    ({ lr := 1/10, params := [⟨17/20, some (3/2)⟩], updates_copy := [],
       old_params_copy := [], inertia := Phase.awaitingExtrapolation } : FBFSGD).params.map Param.data
      = List.zipWith
          (fun q p => q.data - (FBFSGD.init (1/10) [⟨1, some 2⟩]).lr * gradOr0 q
            + (FBFSGD.init (1/10) [⟨1, some 2⟩]).lr * gradOr0 p)
          ({ lr := 1/10, params := [⟨4/5, some (3/2)⟩], updates_copy := [-(1/5)],
             old_params_copy := [], inertia := Phase.awaitingStep } : FBFSGD).params
          (FBFSGD.init (1/10) [⟨1, some 2⟩]).params :=
  fbf_iteration_recurrence (FBFSGD.init (1/10) [⟨1, some 2⟩])
    { lr := 1/10, params := [⟨4/5, some 2⟩], updates_copy := [-(1/5)],
      old_params_copy := [], inertia := Phase.awaitingStep }
    { lr := 1/10, params := [⟨4/5, some (3/2)⟩], updates_copy := [-(1/5)],
      old_params_copy := [], inertia := Phase.awaitingStep }
    { lr := 1/10, params := [⟨17/20, some (3/2)⟩], updates_copy := [],
      old_params_copy := [], inertia := Phase.awaitingExtrapolation }
    (by simp [FBFSGD.extrapolation, FBFSGD.init, sgdUpdate, gradOr0]; norm_num)
    rfl rfl
    (by simp [FBFSGD.step, sgdUpdate, gradOr0]; norm_num)

end FBFSGD

namespace FBFSGD

/-- Counterexample for claim C3: at one parameter with value `1`,
gradient `2` and step size `1/10`, the value subtracted by
`extrapolation()` is `1 - 4/5 = (1/10)*2`, but the cache entry is
`-(1/5)`, which differs from `(1/10)*2`: the cache stores the negation of
the subtracted value, not the subtracted value itself. -/
theorem extrapolation_cache_sign_cex :
    (FBFSGD.init (1/10) [⟨1, some 2⟩]).extrapolation
      = Except.ok { lr := 1/10, params := [⟨4/5, some 2⟩], updates_copy := [-(1/5)],
                    old_params_copy := [], inertia := Phase.awaitingStep } ∧
    ((1 : ℚ) - 4/5 = (1/10) * 2) ∧ ((-(1/5) : ℚ) ≠ (1/10) * 2) :=
  ⟨by simp [FBFSGD.extrapolation, FBFSGD.init, sgdUpdate, gradOr0]; norm_num,
   by norm_num, by norm_num⟩

/-- Claim C3 (amended): after a successful `extrapolation()`, every cache
entry equals the signed update `-(lr * grad)` that was added to the
parameter — equivalently, the new value minus the old value — i.e. the
negation of the value subtracted. -/
theorem extrapolation_cache_eq_applied_update (o o' : FBFSGD)
    (h : o.extrapolation = Except.ok o') :
    o'.updates_copy = o.params.map (fun p => -(o.lr * gradOr0 p)) ∧
    o'.updates_copy = List.zipWith (fun q p => q.data - p.data) o'.params o.params := by
  obtain ⟨-, -, rfl⟩ := extrapolation_ok_elim h
  refine ⟨by simp [extrapolated, sgdUpdate], ?_⟩
  simp [extrapolated, List.zipWith_map_left, List.zipWith_same]

/-- Witness for the amended claim C3 at the concrete scenario: the cache
entry is `-((1/10)*2) = -(1/5)`. -/
theorem extrapolation_cache_eq_applied_update_witness :
    ({ lr := 1/10, params := [⟨4/5, some 2⟩], updates_copy := [-(1/5)],
       old_params_copy := [], inertia := Phase.awaitingStep } : FBFSGD).updates_copy
      = (FBFSGD.init (1/10) [⟨1, some 2⟩]).params.map
          (fun p => -((FBFSGD.init (1/10) [⟨1, some 2⟩]).lr * gradOr0 p)) :=
  (extrapolation_cache_eq_applied_update (FBFSGD.init (1/10) [⟨1, some 2⟩])
    { lr := 1/10, params := [⟨4/5, some 2⟩], updates_copy := [-(1/5)],
      old_params_copy := [], inertia := Phase.awaitingStep }
    (by simp [FBFSGD.extrapolation, FBFSGD.init, sgdUpdate, gradOr0]; norm_num)).1

/-- Counterexample for claim C4: running the spec's concrete scenario
(one parameter with value `1`, step size `1/10`, gradient `2` at
extrapolation, `3/2` at step) the value after extrapolation is `4/5` as
claimed, but the cache holds `-(1/5)` (not `1/5`) and the value after
`step()` is `17/20 = 0.85` (not `9/20 = 0.45`). -/
theorem endToEnd_scenario_cex :
    (FBFSGD.init (1/10) [⟨1, some 2⟩]).extrapolation
      = Except.ok { lr := 1/10, params := [⟨4/5, some 2⟩], updates_copy := [-(1/5)],
                    old_params_copy := [], inertia := Phase.awaitingStep } ∧
    (({ lr := 1/10, params := [⟨4/5, some 2⟩], updates_copy := [-(1/5)],
        old_params_copy := [], inertia := Phase.awaitingStep } : FBFSGD).setGrads [3/2]).step
      = Except.ok { lr := 1/10, params := [⟨17/20, some (3/2)⟩], updates_copy := [],
                    old_params_copy := [], inertia := Phase.awaitingExtrapolation } ∧
    ((-(1/5) : ℚ) ≠ 1/5) ∧ ((17/20 : ℚ) ≠ 9/20) :=
  ⟨by simp [FBFSGD.extrapolation, FBFSGD.init, sgdUpdate, gradOr0]; norm_num,
   by simp [FBFSGD.step, FBFSGD.setGrads, sgdUpdate, gradOr0]; norm_num,
   by norm_num, by norm_num⟩

/-- Claim C4 (amended): in the concrete scenario (one scalar parameter,
initial value `1`, step size `1/10`, plain-gradient rule, gradient `2` at
extrapolation and `3/2` at step), after `extrapolation()` the value is
`4/5 = 0.8` and the cache entry is `-(1/5) = -0.2`; after `step()` the
value is `4/5 - (1/10)*(3/2) - (-(1/5)) = 17/20 = 0.85`. -/
theorem endToEnd_scenario_amended :
    (FBFSGD.init (1/10) [⟨1, some 2⟩]).extrapolation
      = Except.ok { lr := 1/10, params := [⟨4/5, some 2⟩], updates_copy := [-(1/5)],
                    old_params_copy := [], inertia := Phase.awaitingStep } ∧
    (({ lr := 1/10, params := [⟨4/5, some 2⟩], updates_copy := [-(1/5)],
        old_params_copy := [], inertia := Phase.awaitingStep } : FBFSGD).setGrads [3/2]).step
      = Except.ok { lr := 1/10, params := [⟨17/20, some (3/2)⟩], updates_copy := [],
                    old_params_copy := [], inertia := Phase.awaitingExtrapolation } :=
  ⟨by simp [FBFSGD.extrapolation, FBFSGD.init, sgdUpdate, gradOr0]; norm_num,
   by simp [FBFSGD.step, FBFSGD.setGrads, sgdUpdate, gradOr0]; norm_num⟩

end FBFSGD

namespace FBFSGD

/-- Claim C5: in every state reachable from a freshly constructed
optimizer (with at least one tracked parameter) through the public
operations, the update cache is non-empty if and only if the phase is
`awaitingStep`; moreover every completed `step()` leaves the cache empty
and the phase back at `awaitingExtrapolation`. -/
theorem cache_nonempty_iff_awaitingStep (lr : ℚ) (ps : List Param) (o : FBFSGD)
    (h : Reachable lr ps o) (hne : ps ≠ []) :
    (o.updates_copy ≠ [] ↔ o.inertia = Phase.awaitingStep) ∧
    ∀ o' : FBFSGD, o.step = Except.ok o' →
      o'.updates_copy = [] ∧ o'.inertia = Phase.awaitingExtrapolation := by
  obtain ⟨-, -, h3⟩ := reachable_inv h
  constructor
  · rcases h3 with ⟨hph, hlen⟩ | ⟨hph, hemp⟩
    · have hnc : o.updates_copy ≠ [] := by
        intro hc
        apply hne
        rw [hc] at hlen
        exact List.length_eq_zero.mp hlen.symm
      exact ⟨fun _ => hph, fun _ => hnc⟩
    · simp [hemp, hph]
  · intro o' hok
    obtain ⟨-, -, rfl⟩ := step_ok_elim hok
    exact ⟨rfl, rfl⟩

/-- Witness for claim C5 at the freshly constructed optimizer over one
parameter: the cache is empty and the phase is `awaitingExtrapolation`,
so both sides of the equivalence are false. -/
theorem cache_nonempty_iff_awaitingStep_witness :
    ([(⟨0, none⟩ : Param)] ≠ []) ∧
    (((FBFSGD.init 1 [⟨0, none⟩]).updates_copy ≠ []
        ↔ (FBFSGD.init 1 [⟨0, none⟩]).inertia = Phase.awaitingStep) ∧
      ∀ o' : FBFSGD, (FBFSGD.init 1 [⟨0, none⟩]).step = Except.ok o' →
        o'.updates_copy = [] ∧ o'.inertia = Phase.awaitingExtrapolation) :=
  ⟨by simp,
   cache_nonempty_iff_awaitingStep 1 [⟨0, none⟩] (FBFSGD.init 1 [⟨0, none⟩])
     Reachable.init (by simp)⟩

/-- Claim C6: calling `step()` while the phase is `awaitingExtrapolation`
(in particular on a fresh optimizer, before any `extrapolation()`) fails
with `invalidPhase`; since a failing call returns no successor state in
this embedding, no parameter, gradient, cache or auxiliary state is
mutated — a call either produces a state with all parameters updated or
an error with none. -/
theorem step_requires_extrapolation_first (o : FBFSGD)
    (h : o.inertia = Phase.awaitingExtrapolation) :
    o.step = Except.error OptError.invalidPhase := by
  rw [step_eq, if_pos h]

/-- Witness for claim C6: a freshly constructed optimizer (even with its
gradient already populated) rejects `step()` with `invalidPhase`. -/
theorem step_requires_extrapolation_first_witness :
    (FBFSGD.init (1/10) [⟨1, some 2⟩]).inertia = Phase.awaitingExtrapolation ∧
    (FBFSGD.init (1/10) [⟨1, some 2⟩]).step = Except.error OptError.invalidPhase :=
  ⟨rfl, step_requires_extrapolation_first (FBFSGD.init (1/10) [⟨1, some 2⟩]) rfl⟩

/-- Claim C7: `zero_grad()` keeps every parameter value, the cache, the
auxiliary `old_params_copy`, the phase and the step size unchanged, maps
every gradient slot through zeroing (populated slots become `0`, unset
slots stay unset), and is idempotent; it is a total function, so it has
no preconditions and may be called in any state, including mid-iteration
with a non-empty cache. -/
theorem zero_grad_frame (o : FBFSGD) :
    o.zero_grad.params.map Param.data = o.params.map Param.data ∧
    o.zero_grad.params.map Param.grad = o.params.map (fun p => p.grad.map (fun _ => 0)) ∧
    o.zero_grad.updates_copy = o.updates_copy ∧
    o.zero_grad.old_params_copy = o.old_params_copy ∧
    o.zero_grad.inertia = o.inertia ∧
    o.zero_grad.lr = o.lr ∧
    o.zero_grad.zero_grad = o.zero_grad := by
  refine ⟨?_, ?_, rfl, rfl, rfl, rfl, ?_⟩
  · simp [zero_grad, List.map_map, Function.comp]
  · simp [zero_grad, List.map_map, Function.comp]
  · simp only [zero_grad, List.map_map]
    refine congrArg (FBFSGD.mk o.lr · o.updates_copy o.old_params_copy o.inertia) ?_
    refine List.map_congr_left ?_
    intro p _
    cases hg : p.grad <;> simp [Function.comp, hg]

/-- Claim C8: a freshly constructed optimizer is in phase
`awaitingExtrapolation` with an empty update cache. -/
theorem init_phase_and_empty_cache (lr : ℚ) (ps : List Param) :
    (FBFSGD.init lr ps).inertia = Phase.awaitingExtrapolation ∧
    (FBFSGD.init lr ps).updates_copy = [] := ⟨rfl, rfl⟩

/-- Claim C9: if the `i`-th tracked parameter exists and its gradient
slot has never been populated (`none`), then after `zero_grad()` the slot
is still `none` — zeroing applies only to gradients that exist; no zero
value is materialized. -/
theorem zero_grad_keeps_unset_slot (o : FBFSGD) (i : ℕ)
    (h : o.params[i]?.map Param.grad = some none) :
    o.zero_grad.params[i]?.map Param.grad = some none := by
  cases hp : o.params[i]? with
  | none => rw [hp] at h; simp at h
  | some p =>
      rw [hp] at h
      simp at h
      simp [zero_grad, List.getElem?_map, hp, h]

/-- Witness for claim C9: one parameter whose gradient slot was never
populated keeps an unset slot across `zero_grad()`. -/
theorem zero_grad_keeps_unset_slot_witness :
    ((FBFSGD.init 1 [⟨1, none⟩]).params[0]?.map Param.grad = some none) ∧
    ((FBFSGD.init 1 [⟨1, none⟩]).zero_grad.params[0]?.map Param.grad = some none) :=
  ⟨rfl, zero_grad_keeps_unset_slot (FBFSGD.init 1 [⟨1, none⟩]) 0 rfl⟩

end FBFSGD

namespace FBFSGD

/-- Claim C10: after a successful `extrapolation()`, the caller's
projection (clamping of parameter values) and the subsequent
re-differentiation leave every cache entry unchanged, and a following
successful `step()` combines the new gradient with exactly the entries
recorded at extrapolation time. -/
theorem projection_preserves_cache (o o₁ : FBFSGD) (lo hi : ℚ) (gs : List ℚ)
    (h : o.extrapolation = Except.ok o₁) :
    (o₁.clampParams lo hi).updates_copy = o₁.updates_copy ∧
    ((o₁.clampParams lo hi).setGrads gs).updates_copy = o₁.updates_copy ∧
    ∀ o₃ : FBFSGD, ((o₁.clampParams lo hi).setGrads gs).step = Except.ok o₃ →
      o₃.params.map Param.data
        = List.zipWith (fun q u => q.data - o.lr * gradOr0 q - u)
            ((o₁.clampParams lo hi).setGrads gs).params o₁.updates_copy := by
  have hcl : (o₁.clampParams lo hi).updates_copy = o₁.updates_copy := rfl
  have hsg : ∀ x : FBFSGD, (x.setGrads gs).updates_copy = x.updates_copy := by
    intro x
    unfold setGrads
    split <;> rfl
  have hsglr : ∀ x : FBFSGD, (x.setGrads gs).lr = x.lr := by
    intro x
    unfold setGrads
    split <;> rfl
  have hlr : ((o₁.clampParams lo hi).setGrads gs).lr = o.lr := by
    obtain ⟨-, -, rfl⟩ := extrapolation_ok_elim h
    rw [hsglr]
    rfl
  refine ⟨hcl, by rw [hsg, hcl], ?_⟩
  intro o₃ hok
  obtain ⟨-, -, rfl⟩ := step_ok_elim hok
  simp only [stepped, List.map_zipWith, hsg, hcl, hlr]
  congr 1
  funext q u
  simp only [sgdUpdate]
  ring

/-- Witness for claim C10 at the concrete scenario with the notebook's
clipping radius `1/4`: after extrapolation the value `4/5` is clamped to
`1/4`, the cache still holds `-(1/5)`, and `step()` with gradient `3/2`
produces `1/4 - (1/10)*(3/2) - (-(1/5)) = 3/10`. -/
theorem projection_preserves_cache_witness :
    ((({ lr := 1/10, params := [⟨4/5, some 2⟩], updates_copy := [-(1/5)],
         old_params_copy := [], inertia := Phase.awaitingStep } : FBFSGD).clampParams
        (-(1/4)) (1/4)).setGrads [3/2]).updates_copy
      = ({ lr := 1/10, params := [⟨4/5, some 2⟩], updates_copy := [-(1/5)],
           old_params_copy := [], inertia := Phase.awaitingStep } : FBFSGD).updates_copy ∧
    ({ lr := 1/10, params := [⟨3/10, some (3/2)⟩], updates_copy := [],
       old_params_copy := [], inertia := Phase.awaitingExtrapolation } : FBFSGD).params.map Param.data
      = List.zipWith
          (fun q u => q.data - (FBFSGD.init (1/10) [⟨1, some 2⟩]).lr * gradOr0 q - u)
          ((({ lr := 1/10, params := [⟨4/5, some 2⟩], updates_copy := [-(1/5)],
               old_params_copy := [], inertia := Phase.awaitingStep } : FBFSGD).clampParams
              (-(1/4)) (1/4)).setGrads [3/2]).params
          ({ lr := 1/10, params := [⟨4/5, some 2⟩], updates_copy := [-(1/5)],
             old_params_copy := [], inertia := Phase.awaitingStep } : FBFSGD).updates_copy :=
  ⟨(projection_preserves_cache (FBFSGD.init (1/10) [⟨1, some 2⟩])
      { lr := 1/10, params := [⟨4/5, some 2⟩], updates_copy := [-(1/5)],
        old_params_copy := [], inertia := Phase.awaitingStep }
      (-(1/4)) (1/4) [3/2]
      (by simp [FBFSGD.extrapolation, FBFSGD.init, sgdUpdate, gradOr0]; norm_num)).2.1,
   (projection_preserves_cache (FBFSGD.init (1/10) [⟨1, some 2⟩])
      { lr := 1/10, params := [⟨4/5, some 2⟩], updates_copy := [-(1/5)],
        old_params_copy := [], inertia := Phase.awaitingStep }
      (-(1/4)) (1/4) [3/2]
      (by simp [FBFSGD.extrapolation, FBFSGD.init, sgdUpdate, gradOr0]; norm_num)).2.2
     { lr := 1/10, params := [⟨3/10, some (3/2)⟩], updates_copy := [],
       old_params_copy := [], inertia := Phase.awaitingExtrapolation }
     (by simp [FBFSGD.step, FBFSGD.setGrads, FBFSGD.clampParams, sgdUpdate, gradOr0]; norm_num)⟩

end FBFSGD

namespace FBFSGD

/-- Witness for claim C7 at a mid-iteration state (non-empty cache, phase
`awaitingStep`, one populated and one unset gradient slot): `zero_grad()`
leaves values, cache, auxiliary list, phase and step size unchanged,
zeroes the populated slot, keeps the unset slot unset, and is
idempotent. -/
theorem zero_grad_frame_witness :
    ({ lr := 1, params := [⟨2, some 3⟩, ⟨4, none⟩], updates_copy := [5, 6],
       old_params_copy := [], inertia := Phase.awaitingStep } : FBFSGD).zero_grad.params.map Param.data
      = ({ lr := 1, params := [⟨2, some 3⟩, ⟨4, none⟩], updates_copy := [5, 6],
           old_params_copy := [], inertia := Phase.awaitingStep } : FBFSGD).params.map Param.data ∧
    ({ lr := 1, params := [⟨2, some 3⟩, ⟨4, none⟩], updates_copy := [5, 6],
       old_params_copy := [], inertia := Phase.awaitingStep } : FBFSGD).zero_grad.params.map Param.grad
      = ({ lr := 1, params := [⟨2, some 3⟩, ⟨4, none⟩], updates_copy := [5, 6],
           old_params_copy := [], inertia := Phase.awaitingStep } : FBFSGD).params.map
          (fun p => p.grad.map (fun _ => 0)) ∧
    ({ lr := 1, params := [⟨2, some 3⟩, ⟨4, none⟩], updates_copy := [5, 6],
       old_params_copy := [], inertia := Phase.awaitingStep } : FBFSGD).zero_grad.updates_copy
      = ({ lr := 1, params := [⟨2, some 3⟩, ⟨4, none⟩], updates_copy := [5, 6],
           old_params_copy := [], inertia := Phase.awaitingStep } : FBFSGD).updates_copy ∧
    ({ lr := 1, params := [⟨2, some 3⟩, ⟨4, none⟩], updates_copy := [5, 6],
       old_params_copy := [], inertia := Phase.awaitingStep } : FBFSGD).zero_grad.old_params_copy
      = ({ lr := 1, params := [⟨2, some 3⟩, ⟨4, none⟩], updates_copy := [5, 6],
           old_params_copy := [], inertia := Phase.awaitingStep } : FBFSGD).old_params_copy ∧
    ({ lr := 1, params := [⟨2, some 3⟩, ⟨4, none⟩], updates_copy := [5, 6],
       old_params_copy := [], inertia := Phase.awaitingStep } : FBFSGD).zero_grad.inertia
      = ({ lr := 1, params := [⟨2, some 3⟩, ⟨4, none⟩], updates_copy := [5, 6],
           old_params_copy := [], inertia := Phase.awaitingStep } : FBFSGD).inertia ∧
    ({ lr := 1, params := [⟨2, some 3⟩, ⟨4, none⟩], updates_copy := [5, 6],
       old_params_copy := [], inertia := Phase.awaitingStep } : FBFSGD).zero_grad.lr
      = ({ lr := 1, params := [⟨2, some 3⟩, ⟨4, none⟩], updates_copy := [5, 6],
           old_params_copy := [], inertia := Phase.awaitingStep } : FBFSGD).lr ∧
    ({ lr := 1, params := [⟨2, some 3⟩, ⟨4, none⟩], updates_copy := [5, 6],
       old_params_copy := [], inertia := Phase.awaitingStep } : FBFSGD).zero_grad.zero_grad
      = ({ lr := 1, params := [⟨2, some 3⟩, ⟨4, none⟩], updates_copy := [5, 6],
           old_params_copy := [], inertia := Phase.awaitingStep } : FBFSGD).zero_grad :=
  zero_grad_frame
    { lr := 1, params := [⟨2, some 3⟩, ⟨4, none⟩], updates_copy := [5, 6],
      old_params_copy := [], inertia := Phase.awaitingStep }

/-- Witness for claim C8: a fresh optimizer over one parameter starts in
phase `awaitingExtrapolation` with an empty cache. -/
theorem init_phase_and_empty_cache_witness :
    (FBFSGD.init 1 [⟨1, none⟩]).inertia = Phase.awaitingExtrapolation ∧
    (FBFSGD.init 1 [⟨1, none⟩]).updates_copy = [] :=
  init_phase_and_empty_cache 1 [⟨1, none⟩]

end FBFSGD
